import Mathlib

/-!
Verification development for the Terabox link-resolution and download
pipeline (src/src/handlers/download.py).  The Python functions
`extract_terabox_url`, `fetch_stream_url`, `download_video`,
`_download_direct_http` and `_download_m3u8_with_ffmpeg` are shallowly
embedded as pure Lean functions; network responses, the ffmpeg subprocess
and the download directory are passed in explicitly as environment values.
-/

/-! ## Character and list utilities (Python `str` operations) -/

/-- ASCII lower-casing of one character, as Python `str.lower` acts on
ASCII input. -/
def lowChar (c : Char) : Char :=
  if 'A' ≤ c ∧ c ≤ 'Z' then Char.ofNat (c.toNat + 32) else c

def lowerList (l : List Char) : List Char := l.map lowChar

/-- Whitespace for Python `str.strip` / regex `\s` (ASCII range). -/
def isWsChar (c : Char) : Bool :=
  c = ' ' || c = '\t' || c = '\n' || c = '\r' || c = Char.ofNat 11 || c = Char.ofNat 12

def trimChars (l : List Char) : List Char :=
  ((l.dropWhile isWsChar).reverse.dropWhile isWsChar).reverse

/-- Boolean list-beginning test (Python `str.startswith`). -/
def isPre : List Char → List Char → Bool
  | [], _ => true
  | _ :: _, [] => false
  | a :: as, b :: bs => if a = b then isPre as bs else false

/-- Boolean substring test (Python `needle in hay`). -/
def hasSub (needle : List Char) : List Char → Bool
  | [] => isPre needle []
  | c :: cs => isPre needle (c :: cs) || hasSub needle cs

/-- If `needle` begins `hay`, return the rest of `hay`. -/
def stripLead : List Char → List Char → Option (List Char)
  | [], s => some s
  | _ :: _, [] => none
  | a :: as, b :: bs => if a = b then stripLead as bs else none

/-- Remainder of the list after the first occurrence of `needle`
(Python `str.find` + slicing). -/
def afterSub (needle : List Char) : List Char → Option (List Char)
  | [] => stripLead needle []
  | c :: cs =>
    match stripLead needle (c :: cs) with
    | some r => some r
    | none => afterSub needle cs

/-- Leftmost-match regex search: try the matcher at every start position,
returning the first success (Python `re.search`). -/
def searchFirst {α : Type} (f : List Char → Option α) : List Char → Option α
  | [] => f []
  | c :: cs =>
    match f (c :: cs) with
    | some r => some r
    | none => searchFirst f cs

/-- Python `.replace('\\/', '/')`: un-escape JSON-escaped forward slashes. -/
def unescSlash : List Char → List Char
  | '\\' :: '/' :: rest => '/' :: unescSlash rest
  | c :: rest => c :: unescSlash rest
  | [] => []

/-- Python `.replace('\\:', ':')`: un-escape escaped colons. -/
def unescColon : List Char → List Char
  | '\\' :: ':' :: rest => ':' :: unescColon rest
  | c :: rest => c :: unescColon rest
  | [] => []

/-! ## URL parsing helpers (`urllib.parse.urlparse(...).path`,
`os.path.basename`) -/

def cutAt (stop : Char) (l : List Char) : List Char := l.takeWhile (· ≠ stop)

/-- Path component of a URL: drop query and fragment, then everything up
to and including the network location (models `urlparse(u).path` for
`scheme://host/path` URLs). -/
def urlPathL (u : List Char) : List Char :=
  let base := cutAt '#' (cutAt '?' u)
  match afterSub [':', '/', '/'] base with
  | some rest => rest.dropWhile (· ≠ '/')
  | none => base

/-- Final path segment (models `os.path.basename`). -/
def pathBaseL (p : List Char) : List Char :=
  (p.reverse.takeWhile (· ≠ '/')).reverse

/-- Filename derived from a URL in `fetch_stream_url`:
`os.path.basename(urlparse(u).path) or 'terabox_video.mp4'`. -/
def filenameFromUrl (u : String) : String :=
  let b := pathBaseL (urlPathL u.data)
  if b.isEmpty then "terabox_video.mp4" else String.mk b

/-! ## URL Normalizer: `extract_terabox_url` (download.py lines 17-40) -/

def aliasSrc : List Char := "teraboxlink.com".data

def aliasDst : List Char := "terabox.com".data

/-- Case-insensitive global replacement of `teraboxlink.com` by
`terabox.com`: worker with explicit fuel (each step consumes at least one
character, so `fuel = length` is enough). -/
def replaceAliasAux : Nat → List Char → List Char
  | 0, l => l
  | _, [] => []
  | fuel + 1, c :: cs =>
    if lowerList (List.take 15 (c :: cs)) = aliasSrc then
      aliasDst ++ replaceAliasAux fuel (List.drop 15 (c :: cs))
    else
      c :: replaceAliasAux fuel cs

/-- Case-insensitive global replacement of `teraboxlink.com` by
`terabox.com` (the `re.sub(r'teraboxlink\.com', 'terabox.com', url,
flags=re.IGNORECASE)` at line 34). -/
def replaceAlias (l : List Char) : List Char := replaceAliasAux l.length l

/-- Scheme check at line 29: `url.lower().startswith(('http://', 'https://'))`. -/
def schemeOkL (u : List Char) : Bool :=
  isPre "http://".data (lowerList u) || isPre "https://".data (lowerList u)

/-- `extract_terabox_url` (download.py lines 17-40): trim, require an
http(s) scheme, rewrite the `teraboxlink.com` alias, then require
`'terabox'` as a case-insensitive substring. -/
def extract_terabox_url (url : String) : Option String :=
  let u := trimChars url.data
  if schemeOkL u then
    let u2 := replaceAlias u
    if hasSub "terabox".data (lowerList u2) then some (String.mk u2) else none
  else none

/-! ## Extraction patterns of `fetch_stream_url` (download.py lines 148-188)

The resolution-keyed pattern is `"<label>"\s*:\s*"([^"]+)"`; the
segmented-playlist and direct-file patterns are
`(https?://[^\s"\'<>]*\.EXT[^\s"\'<>]*)` and
`["\'](https?://[^"\']*?\.EXT[^"\']*)["\']` for EXT in `.m3u8` / `.mp4`. -/

/-- Match the quoted-field pattern `"<label>"\s*:\s*"([^"]+)"` anchored at
the start of `s`; return the captured group. -/
def matchFieldAt (label : List Char) (s : List Char) : Option (List Char) :=
  match stripLead ('"' :: (label ++ ['"'])) s with
  | none => none
  | some r1 =>
    match stripLead [':'] (r1.dropWhile isWsChar) with
    | none => none
    | some r3 =>
      match stripLead ['"'] (r3.dropWhile isWsChar) with
      | none => none
      | some r5 =>
        let cap := r5.takeWhile (· ≠ '"')
        match r5.dropWhile (· ≠ '"') with
        | '"' :: _ => if cap.isEmpty then none else some cap
        | _ => none

/-- `re.search` of the quoted-field pattern over the whole text. -/
def findField (label : List Char) (text : List Char) : Option (List Char) :=
  searchFirst (matchFieldAt label) text

/-- Characters allowed inside a bare URL by the class `[^\s"\'<>]`. -/
def isUrlChar (c : Char) : Bool :=
  !(isWsChar c || c = '"' || c = Char.ofNat 39 || c = '<' || c = '>')

/-- Single or double quote, the class `["\']`. -/
def quoteChar (c : Char) : Bool := c = '"' || c = Char.ofNat 39

/-- After the optional `s` of `https?` has been resolved to `sPart`,
match `://` then a URL-character run that must contain `ext`; the greedy
trailing class extends the match to the end of the run. -/
def matchExtUrlTail (ext : List Char) (sPart : List Char) (r : List Char) :
    Option (List Char) :=
  match stripLead [':', '/', '/'] r with
  | none => none
  | some r1 =>
    let run := r1.takeWhile isUrlChar
    if hasSub ext run then
      some (("http".data ++ sPart) ++ ([':', '/', '/'] ++ run))
    else none

/-- Match `(https?://[^\s"\'<>]*\.EXT[^\s"\'<>]*)` anchored at the start
of `s` (with regex backtracking over the optional `s`). -/
def matchExtUrlAt (ext : List Char) (s : List Char) : Option (List Char) :=
  match stripLead "http".data s with
  | none => none
  | some r0 =>
    match r0 with
    | 's' :: r =>
      (match matchExtUrlTail ext ['s'] r with
       | some m => some m
       | none => matchExtUrlTail ext [] r0)
    | _ => matchExtUrlTail ext [] r0

/-- Tail of the quoted URL pattern: `://`, then a quote-free run that must
contain `ext`, terminated by a closing quote. -/
def matchQuotedTail (ext : List Char) (sPart : List Char) (r : List Char) :
    Option (List Char) :=
  match stripLead [':', '/', '/'] r with
  | none => none
  | some r1 =>
    let run := r1.takeWhile (fun c => !(quoteChar c))
    let rest := r1.dropWhile (fun c => !(quoteChar c))
    if hasSub ext run && !rest.isEmpty then
      some (("http".data ++ sPart) ++ ([':', '/', '/'] ++ run))
    else none

/-- Match `["\'](https?://[^"\']*?\.EXT[^"\']*)["\']` anchored at the
start of `s`; return the captured group (quotes excluded). -/
def matchQuotedExtUrlAt (ext : List Char) (s : List Char) : Option (List Char) :=
  match s with
  | [] => none
  | c :: rest =>
    if quoteChar c then
      match stripLead "http".data rest with
      | none => none
      | some r0 =>
        match r0 with
        | 's' :: r =>
          (match matchQuotedTail ext ['s'] r with
           | some m => some m
           | none => matchQuotedTail ext [] r0)
        | _ => matchQuotedTail ext [] r0
    else none

/-- The two-pattern loop at lines 162-174 / 177-188: search the bare
pattern over the whole text first, then the quoted one. -/
def extractExtUrl (ext : List Char) (text : List Char) : Option (List Char) :=
  match searchFirst (matchExtUrlAt ext) text with
  | some m => some m
  | none => searchFirst (matchQuotedExtUrlAt ext) text

/-- The resolution labels tried at lines 150 and 206, in source order. -/
def resolutionLabels : List String := ["360p", "480p", "720p", "1080p", "playUrl"]

/-- The resolution-keyed extraction loop: first label whose quoted-field
pattern matches wins; escaped slashes are un-escaped (line 156). -/
def extractByRes (mkName : String → String) (text : List Char) :
    Option (String × String) :=
  resolutionLabels.findSome? fun res =>
    (findField res.data text).map fun cap =>
      (String.mk (unescSlash cap), mkName res)

/-- Filename used by the API-response resolution loop (line 157). -/
def apiResName (res : String) : String := "terabox_video_" ++ res ++ ".mp4"

/-- Filename used by the fallback-page resolution loop (line 211). -/
def pageResName (res : String) : String := "@AdultsVideoLink_" ++ res ++ ".mp4"

/-- The m3u8 search (lines 161-174): matched URL un-escaped, fixed name. -/
def extractM3u8 (text : List Char) : Option (String × String) :=
  (extractExtUrl ".m3u8".data text).map fun m =>
    (String.mk (unescColon (unescSlash m)), "terabox_video.mp4")

/-- The mp4 search (lines 176-188): matched URL un-escaped, filename from
the URL path's basename. -/
def extractMp4 (text : List Char) : Option (String × String) :=
  (extractExtUrl ".mp4".data text).map fun m =>
    let u := String.mk (unescColon (unescSlash m))
    (u, filenameFromUrl u)

/-- Text-pattern cascade applied to the API response body
(lines 148-188): resolution fields, then m3u8, then mp4. -/
def textExtract (text : List Char) : Option (String × String) :=
  match extractByRes apiResName text with
  | some r => some r
  | none =>
    match extractM3u8 text with
    | some r => some r
    | none => extractMp4 text

/-- Text-pattern cascade applied to the fallback Terabox page body
(lines 206-231); identical except for the resolution filename format. -/
def pageExtract (text : List Char) : Option (String × String) :=
  match extractByRes pageResName text with
  | some r => some r
  | none =>
    match extractM3u8 text with
    | some r => some r
    | none => extractMp4 text

/-! ## JSON shapes (download.py lines 99-142) -/

/-- Parsed JSON values, as `response.json()` can produce them. -/
inductive JVal where
  | str (s : String)
  | num (n : Int)
  | bool (b : Bool)
  | null
  | arr (elems : List JVal)
  | obj (fields : List (String × JVal))

/-- Python truthiness, used by `if key in data and data[key]`. -/
def truthy : JVal → Bool
  | JVal.str s => if s = "" then false else true
  | JVal.num n => if n = 0 then false else true
  | JVal.bool b => b
  | JVal.null => false
  | JVal.arr l => !l.isEmpty
  | JVal.obj l => !l.isEmpty

/-- Dictionary lookup, `data[key]` guarded by `key in data`. -/
def assocLookup : List (String × JVal) → String → Option JVal
  | [], _ => none
  | (k, v) :: rest, key => if k = key then some v else assocLookup rest key

/-- The key loops at lines 113-116 / 126-129: first listed key that is
present with a truthy value. -/
def firstTruthy (fields : List (String × JVal)) (keys : List String) : Option JVal :=
  keys.findSome? fun k =>
    match assocLookup fields k with
    | some v => if truthy v then some v else none
    | none => none

def urlKeys : List String := ["url", "stream_url", "play_url", "video_url"]

def nameKeys : List String := ["filename", "title", "name"]

/-- Stream-URL field search: top level first, then one level under the
`data` wrapper when it is a dict (lines 112-123). -/
def streamField (fields : List (String × JVal)) : Option JVal :=
  match firstTruthy fields urlKeys with
  | some v => some v
  | none =>
    match assocLookup fields "data" with
    | some (JVal.obj inner) => firstTruthy inner urlKeys
    | _ => none

/-- Title/filename field search (lines 125-134). -/
def nameField (fields : List (String × JVal)) : Option JVal :=
  match firstTruthy fields nameKeys with
  | some v => some v
  | none =>
    match assocLookup fields "data" with
    | some (JVal.obj inner) => firstTruthy inner nameKeys
    | _ => none

/-- The class of characters removed by `re.sub(r'[<>:\"/\\|?*]', '', f)`
at line 138. -/
def illegalChar (c : Char) : Bool :=
  c = '<' || c = '>' || c = ':' || c = '"' || c = '/' || c = '\\' ||
    c = '|' || c = '?' || c = '*'

def stripIllegal (l : List Char) : List Char := l.filter (fun c => !(illegalChar c))

/-- Boolean list-suffix test (Python `str.endswith`). -/
def isSuf (suf l : List Char) : Bool := isPre suf.reverse l.reverse

/-- `filename.endswith(('.mp4', '.mkv', '.avi', '.mov'))` at line 139. -/
def hasMediaExt (l : List Char) : Bool :=
  isSuf ".mp4".data l || isSuf ".mkv".data l || isSuf ".avi".data l ||
    isSuf ".mov".data l

/-- Append the default extension when none of the recognized ones is
present (lines 139-140). -/
def ensureExt (l : List Char) : List Char :=
  if hasMediaExt l then l else l ++ ".mp4".data

/-- The filename sanitation at lines 138-140: strip the illegal
characters, then guarantee a media extension. -/
def sanitizeName (raw : String) : String :=
  String.mk (ensureExt (stripIllegal raw.data))

/-- Outcome of the JSON branch (lines 107-142).  `crash` marks the cases
where a truthy but non-string field value makes the f-string slicing or
`re.sub` raise a TypeError, which the enclosing `except Exception` turns
into the generic `(None, None)` result. -/
inductive JsonStep where
  | found (streamUrl filename : String)
  | crash
  | noUrl
deriving DecidableEq

/-- The JSON branch of `fetch_stream_url` for a dict body: pick the
stream URL and title fields, sanitize the filename (falling back to the
URL path basename, then to a generic name). -/
def jsonStep (fields : List (String × JVal)) : JsonStep :=
  match streamField fields with
  | none => JsonStep.noUrl
  | some (JVal.str u) =>
    (match nameField fields with
     | some (JVal.str f0) => JsonStep.found u (sanitizeName f0)
     | some _ => JsonStep.crash
     | none => JsonStep.found u (sanitizeName (filenameFromUrl u)))
  | some _ => JsonStep.crash

/-! ## Stream Resolver: `fetch_stream_url` (download.py lines 43-250)

Network I/O is abstracted by a `ResolveEnv`: the responses to the (up to
two) API attempts and to the optional fallback fetch of the original
Terabox page.  The function also returns the trace of network calls it
issues, so call-count properties can be stated. -/

/-- One HTTP response as `fetch_stream_url` observes it: status code,
final URL after redirects (`str(response.url)`, empty when the URL object
is falsy), body text (`await response.text()`, empty when reading raises),
and the result of `await response.json()` when it parses. -/
structure ApiResponse where
  status : Nat
  finalUrl : String
  body : String
  jsonVal : Option JVal

/-- Upstream environment for one resolution attempt: the two possible API
responses and the fallback page response (`none` models the page request
raising, which line 234 swallows). -/
structure ResolveEnv where
  api0 : ApiResponse
  api1 : ApiResponse
  page : Option ApiResponse

inductive NetCall where
  | api
  | page
deriving DecidableEq

/-- Control-flow outcome of the function body before the enclosing
`try/except`: a success pair, the generic `(None, None)`, or the
`RuntimeError('anti-bot-detected')` raised at line 240. -/
inductive RawOutcome where
  | success (streamUrl filename : String)
  | failed
  | antiBotRaised
deriving DecidableEq

/-- The anti-bot test at line 71: status 403/520, or `'Bot Verification'`
in the body, or `'recaptcha'` in the lower-cased body. -/
def antiBotMarker (r : ApiResponse) : Bool :=
  r.status = 403 || r.status = 520 ||
    hasSub "Bot Verification".data r.body.data ||
    hasSub "recaptcha".data (lowerList r.body.data)

/-- Lines 237-243: raise the anti-bot error when the marker was seen,
otherwise return the generic failure. -/
def endOutcome (ab : Bool) : RawOutcome :=
  if ab then RawOutcome.antiBotRaised else RawOutcome.failed

/-- The fallback fetch of the original Terabox page (lines 190-243):
apply the page extraction cascade when the page answers 200, swallow
failures, then raise or fail according to the sticky anti-bot flag. -/
def fallbackStep (env : ResolveEnv) (ab : Bool) : RawOutcome × List NetCall :=
  match env.page with
  | none => (endOutcome ab, [NetCall.page])
  | some pr =>
    if pr.status = 200 then
      match pageExtract pr.body.data with
      | some (u, f) => (RawOutcome.success u f, [NetCall.page])
      | none => (endOutcome ab, [NetCall.page])
    else (endOutcome ab, [NetCall.page])

/-- Processing of one API response after the anti-bot gate (lines
86-243): 404 cut-off, redirect fallback for other non-200 statuses, the
JSON branch, the text-pattern cascade, then the page fallback. -/
def handleResponse (apiUrl : String) (env : ResolveEnv) (r : ApiResponse)
    (ab : Bool) : RawOutcome × List NetCall :=
  if r.status = 404 then (RawOutcome.failed, [])
  else if r.status = 200 then
    (match (match r.jsonVal with
            | some (JVal.obj fields) => jsonStep fields
            | _ => JsonStep.noUrl) with
     | JsonStep.found u f => (RawOutcome.success u f, [])
     | JsonStep.crash => (RawOutcome.failed, [])
     | JsonStep.noUrl =>
       match textExtract r.body.data with
       | some (u, f) => (RawOutcome.success u f, [])
       | none => fallbackStep env ab)
  else
    (if r.finalUrl ≠ "" ∧ r.finalUrl ≠ apiUrl then
       RawOutcome.success r.finalUrl (filenameFromUrl r.finalUrl)
     else RawOutcome.failed, [])

/-- The retry loop of `fetch_stream_url` (lines 59-243): when the first
API response carries an anti-bot marker the request is retried once and
the second response is processed with the sticky `anti_bot_detected`
flag; otherwise the first response is processed directly. -/
def fetch_stream_url_raw (apiUrl : String) (env : ResolveEnv) :
    RawOutcome × List NetCall :=
  if antiBotMarker env.api0 then
    let res := handleResponse apiUrl env env.api1 true
    (res.1, NetCall.api :: NetCall.api :: res.2)
  else
    let res := handleResponse apiUrl env env.api0 false
    (res.1, NetCall.api :: res.2)

/-- `fetch_stream_url` as its caller sees it: the enclosing
`try/except Exception` (lines 245-250) turns every raised error —
including the `RuntimeError('anti-bot-detected')` from line 240 — into
the generic `(None, None)` result. -/
def fetch_stream_url (apiUrl : String) (env : ResolveEnv) :
    Option (String × String) × List NetCall :=
  match fetch_stream_url_raw apiUrl env with
  | (RawOutcome.success u f, cs) => (some (u, f), cs)
  | (RawOutcome.failed, cs) => (none, cs)
  | (RawOutcome.antiBotRaised, cs) => (none, cs)

/-! ## Media Fetcher: `download_video` and helpers (download.py lines 253-408)

The download directory is modelled as an association list from file path
to byte size; the stream response and the ffmpeg subprocess are
environment values. -/

/-- Configuration consumed by the fetcher (`config.DOWNLOAD_DIR`,
`config.MAX_FILE_SIZE`). -/
structure FetchConfig where
  downloadDir : String
  maxFileSize : Nat

/-- Behaviour of the streamed HTTP GET in `_download_direct_http`:
status, declared `Content-Length`, total bytes streamed on success, and
`midError = some k` when an exception interrupts the body after `k` bytes
were written. -/
structure DResp where
  status : Nat
  contentLength : Option Nat
  bodyLen : Nat
  midError : Option Nat

inductive FfExit where
  | timeout
  | exited (code : Nat)

/-- Behaviour of the ffmpeg subprocess: the size of the output file it
leaves behind (`none` when it creates no file; `-y` lets it overwrite an
existing one) and how it finishes. -/
structure FfRun where
  written : Option Nat
  exit : FfExit

structure DownloadEnv where
  http : DResp
  ffmpeg : FfRun

/-- The shared download directory: file path to byte size. -/
abbrev FileSys := List (String × Nat)

def fsGet : FileSys → String → Option Nat
  | [], _ => none
  | (q, n) :: rest, p => if q = p then some n else fsGet rest p

/-- `os.remove` (plus the `os.path.exists` guard: removing an absent path
is a no-op here). -/
def fsRemove : FileSys → String → FileSys
  | [], _ => []
  | (q, n) :: rest, p =>
    if q = p then fsRemove rest p else (q, n) :: fsRemove rest p

/-- `open(path, 'wb')` followed by writing `n` bytes: creates or
truncates the file at `path`. -/
def fsSet (fs : FileSys) (p : String) (n : Nat) : FileSys := (p, n) :: fsRemove fs p

/-- The size gate at lines 314-318: `content_length and content_length >
config.MAX_FILE_SIZE` (Python truthiness on the header value). -/
def tooLargeDeclared (cfg : FetchConfig) (cl : Option Nat) : Bool :=
  match cl with
  | some n => if n = 0 then false else if cfg.maxFileSize < n then true else false
  | none => false

/-- `_download_direct_http` (lines 290-345): reject non-200, reject a
declared over-size payload before opening the file, stream the body,
delete files interrupted by an exception or smaller than 1000 bytes. -/
def download_direct_http (cfg : FetchConfig) (resp : DResp) (filePath : String)
    (fs : FileSys) : Option String × FileSys :=
  if resp.status = 200 then
    if tooLargeDeclared cfg resp.contentLength then (none, fs)
    else
      match resp.midError with
      | some k => (none, fsRemove (fsSet fs filePath k) filePath)
      | none =>
        let fs1 := fsSet fs filePath resp.bodyLen
        if resp.bodyLen < 1000 then (none, fsRemove fs1 filePath)
        else (some filePath, fs1)
  else (none, fs)

/-- `_download_m3u8_with_ffmpeg` (lines 348-408): run ffmpeg (which may
leave an output file), delete it on timeout or non-zero exit, and on exit
code 0 reject a missing file (`os.path.getsize` raises; the cleanup then
finds nothing to remove) or one under 100000 bytes. -/
def download_m3u8_with_ffmpeg (ff : FfRun) (filePath : String) (fs : FileSys) :
    Option String × FileSys :=
  let fsAfter := match ff.written with
    | some n => fsSet fs filePath n
    | none => fs
  match ff.exit with
  | FfExit.timeout => (none, fsRemove fsAfter filePath)
  | FfExit.exited code =>
    if code = 0 then
      match fsGet fsAfter filePath with
      | none => (none, fsAfter)
      | some sz =>
        if sz < 100000 then (none, fsRemove fsAfter filePath)
        else (some filePath, fsAfter)
    else (none, fsRemove fsAfter filePath)

/-- Result of `download_video`, instrumented with which branch ran. -/
structure FetchOut where
  result : Option String
  fs : FileSys
  usedRemux : Bool
deriving DecidableEq

/-- The classification at line 267:
`'.m3u8' in stream_url.lower() or 'playlist' in stream_url.lower()`. -/
def isM3u8Url (streamUrl : String) : Bool :=
  hasSub ".m3u8".data (lowerList streamUrl.data) ||
    hasSub "playlist".data (lowerList streamUrl.data)

/-- `download_video` (lines 253-287): build the target path under the
download directory, then dispatch on the stream-kind classification. -/
def download_video (cfg : FetchConfig) (denv : DownloadEnv)
    (streamUrl filename : String) (fs : FileSys) : FetchOut :=
  let filePath := cfg.downloadDir ++ "/" ++ filename
  if isM3u8Url streamUrl then
    let r := download_m3u8_with_ffmpeg denv.ffmpeg filePath fs
    FetchOut.mk r.1 r.2 true
  else
    let r := download_direct_http cfg denv.http filePath fs
    FetchOut.mk r.1 r.2 false

/-! ## Concrete scenario environments used by the per-claim theorems -/

/-- Scenario for C1: both API attempts answer 200 with a bot-verification
challenge page (no extractable URL), and the fallback page fetch answers
403. -/
def envC1 : ResolveEnv :=
  ResolveEnv.mk (ApiResponse.mk 200 "" "Bot Verification" none)
    (ApiResponse.mk 200 "" "Bot Verification" none)
    (some (ApiResponse.mk 403 "" "" none))

/-- Scenario for C2: a 200 API response whose body holds quoted stream
URLs for both 360p and 720p. -/
def bodyC2 : String :=
  "\"360p\":\"https:\\/\\/cdn.example\\/v360.mp4\",\"720p\":\"https:\\/\\/cdn.example\\/v720.mp4\""

def envC2 : ResolveEnv :=
  ResolveEnv.mk (ApiResponse.mk 200 "" bodyC2 none) (ApiResponse.mk 200 "" bodyC2 none) none

/-- Second scenario for C2: a 200 API response whose body holds quoted
stream URLs for 480p and 720p only (no 360p entry). -/
def bodyC2b : String :=
  "\"480p\":\"https:\\/\\/cdn.example\\/v480.mp4\",\"720p\":\"https:\\/\\/cdn.example\\/v720.mp4\""

def envC2b : ResolveEnv :=
  ResolveEnv.mk (ApiResponse.mk 200 "" bodyC2b none) (ApiResponse.mk 200 "" bodyC2b none) none

/-- Scenario for C4: the API answers 500 after redirecting to a URL whose
path basename carries no media extension. -/
def envC4 : ResolveEnv :=
  ResolveEnv.mk (ApiResponse.mk 500 "https://cdn.example/download" "" none)
    (ApiResponse.mk 500 "https://cdn.example/download" "" none) none

/-- Scenario for C5: the API answers 404 with a reCAPTCHA body on both
attempts. -/
def envC5 : ResolveEnv :=
  ResolveEnv.mk (ApiResponse.mk 404 "" "please solve this recaptcha" none)
    (ApiResponse.mk 404 "" "please solve this recaptcha" none) none

def cfgC3 : FetchConfig := FetchConfig.mk "./downloads" 2147483648

def ffIdle : FfRun := FfRun.mk none (FfExit.exited 0)

/-! ## File-system helper lemmas -/

/-- `List.findSome?` over a list split as `pre ++ a :: post` returns the
value `f` takes at `a` when `f` is `none` on all of `pre` and `some` at
`a`. -/
theorem findSome?_first {α β : Type} (f : α → Option β) (pre post : List α)
    (a : α) (b : β) (hpre : ∀ x ∈ pre, f x = none) (ha : f a = some b) :
    (pre ++ a :: post).findSome? f = some b := by
  induction pre with
  | nil => simp [List.findSome?, ha]
  | cons x xs ih =>
    have hx : f x = none := hpre x (by simp)
    have hxs : ∀ y ∈ xs, f y = none := fun y hy => hpre y (by simp [hy])
    simp [List.findSome?, hx, ih hxs]

theorem fsGet_fsRemove_self (fs : FileSys) (p : String) :
    fsGet (fsRemove fs p) p = none := by
  induction fs with
  | nil => rfl
  | cons e rest ih =>
    obtain ⟨q, n⟩ := e
    by_cases h : q = p
    · simpa [fsRemove, h] using ih
    · simpa [fsRemove, fsGet, h] using ih

theorem fsGet_fsSet_self (fs : FileSys) (p : String) (n : Nat) :
    fsGet (fsSet fs p n) p = some n := by
  simp [fsSet, fsGet]

/-! ## Sanitized-filename helper lemmas -/

theorem isPre_append (xs ys : List Char) : isPre xs (xs ++ ys) = true := by
  induction xs with
  | nil => rfl
  | cons a as ih => simp [isPre, ih]

theorem hasMediaExt_append_mp4 (l : List Char) :
    hasMediaExt (l ++ ".mp4".data) = true := by
  have hsuf : isSuf ".mp4".data (l ++ ".mp4".data) = true := by
    unfold isSuf
    rw [List.reverse_append]
    exact isPre_append _ _
  simp [hasMediaExt, hsuf]

theorem sanitize_ok (s : String) :
    (∀ c ∈ (sanitizeName s).data, illegalChar c = false) ∧
      hasMediaExt (sanitizeName s).data = true := by
  have hmp4 : ∀ c ∈ ".mp4".data, illegalChar c = false := by decide
  have hstrip : ∀ c ∈ stripIllegal s.data, illegalChar c = false := by
    intro c hc
    simp only [stripIllegal, List.mem_filter, Bool.not_eq_true'] at hc
    exact hc.2
  show (∀ c ∈ ensureExt (stripIllegal s.data), illegalChar c = false) ∧
    hasMediaExt (ensureExt (stripIllegal s.data)) = true
  unfold ensureExt
  by_cases h : hasMediaExt (stripIllegal s.data)
  · simpa [h] using hstrip
  · simp only [h, if_neg, Bool.false_eq_true, ite_false]
    refine ⟨?_, hasMediaExt_append_mp4 _⟩
    intro c hc
    rcases List.mem_append.mp hc with h1 | h2
    · exact hstrip c h1
    · exact hmp4 c h2

/-! ## Per-claim theorems -/

/-- Claim C1 (code bug): when every extraction avenue fails after an
anti-bot marker was observed, line 240 does raise the distinct
`RuntimeError('anti-bot-detected')`, but the function's own
`except Exception` at line 248 catches it and returns the generic
`(None, None)`; the caller never receives the distinct anti-bot outcome
(the dedicated handler in bot.py lines 271-283 is unreachable from this
path). -/
theorem C1_antibot_swallowed :
    fetch_stream_url_raw "https://iteraplay.example/api" envC1 =
      (RawOutcome.antiBotRaised, [NetCall.api, NetCall.api, NetCall.page]) ∧
    fetch_stream_url "https://iteraplay.example/api" envC1 =
      (none, [NetCall.api, NetCall.api, NetCall.page]) := by decide

/-- Claim C2 counterexample: for a body holding both a 360p and a 720p
quoted stream URL, resolution returns the 360p URL (the loop at line 150
tries `360p` first), not the 720p one the claim demands. -/
theorem C2_cex :
    fetch_stream_url "https://iteraplay.example/api" envC2 =
      (some ("https://cdn.example/v360.mp4", "terabox_video_360p.mp4"), [NetCall.api]) ∧
    ("https://cdn.example/v360.mp4" : String) ≠ "https://cdn.example/v720.mp4" := by decide

/-- Claim C2 amended: over every non-JSON response body, the resolution
loop tries the quality labels in the fixed source order 360p, 480p, 720p,
1080p, playUrl and extracts the URL of the FIRST label that matches, with
escaped slashes un-escaped — so the lowest-resolution entry present wins,
whichever subset of labels the body contains. -/
theorem C2_amended (apiUrl : String) (env : ResolveEnv)
    (pre post : List String) (res : String) (cap : List Char)
    (hlab : resolutionLabels = pre ++ res :: post)
    (hpre : ∀ r ∈ pre, findField r.data env.api0.body.data = none)
    (hres : findField res.data env.api0.body.data = some cap)
    (hst : env.api0.status = 200) (hab : antiBotMarker env.api0 = false)
    (hjs : env.api0.jsonVal = none) :
    fetch_stream_url apiUrl env =
      (some (String.mk (unescSlash cap), apiResName res), [NetCall.api]) := by
  have hfound : extractByRes apiResName env.api0.body.data =
      some (String.mk (unescSlash cap), apiResName res) := by
    unfold extractByRes
    rw [hlab]
    refine findSome?_first _ pre post res _ ?_ ?_
    · intro r hr
      simp [hpre r hr]
    · simp [hres]
  unfold fetch_stream_url fetch_stream_url_raw handleResponse textExtract
  simp [hab, hst, hjs, hfound]

/-- Witness for C2 amended at a body holding only 480p and 720p entries:
360p does not match, so the first matching label is 480p and its URL is
extracted. -/
theorem C2_amended_witness :
    fetch_stream_url "https://iteraplay.example/api" envC2b =
      (some ("https://cdn.example/v480.mp4", "terabox_video_480p.mp4"), [NetCall.api]) := by
  rw [C2_amended "https://iteraplay.example/api" envC2b ["360p"]
    ["720p", "1080p", "playUrl"] "480p" "https:\\/\\/cdn.example\\/v480.mp4".data
    (by decide) (by decide) (by decide) rfl (by decide) rfl]
  decide

/-- Claim C3 counterexample: two successive fetches that resolve to the
same suggested filename write to the same path `./downloads/video.mp4`;
the second (4000 bytes) destructively overwrites the first (5000 bytes),
leaving one file, not two independent ones. -/
theorem C3_cex :
    download_video cfgC3 (DownloadEnv.mk (DResp.mk 200 (some 5000) 5000 none) ffIdle)
        "https://cdn.example/video.mp4" "video.mp4" [] =
      FetchOut.mk (some "./downloads/video.mp4") [("./downloads/video.mp4", 5000)] false ∧
    download_video cfgC3 (DownloadEnv.mk (DResp.mk 200 (some 4000) 4000 none) ffIdle)
        "https://cdn.example/video.mp4" "video.mp4" [("./downloads/video.mp4", 5000)] =
      FetchOut.mk (some "./downloads/video.mp4") [("./downloads/video.mp4", 4000)] false := by
  decide

/-- Claim C3 amended: the fetcher is stateless (a pure function of its
inputs), but the target path is the deterministic
`downloadDir ++ "/" ++ filename`, so a repeated fetch with the same
suggested filename writes to the same path and the second run's bytes
replace the first's — a single file remains, not two independent ones. -/
theorem C3_amended (cfg : FetchConfig) (rA rB : DResp) (ffA ffB : FfRun)
    (streamUrl filename : String) (fs : FileSys)
    (hm : isM3u8Url streamUrl = false)
    (hsA : rA.status = 200) (hclA : rA.contentLength = none)
    (hmeA : rA.midError = none) (hlA : ¬ rA.bodyLen < 1000)
    (hsB : rB.status = 200) (hclB : rB.contentLength = none)
    (hmeB : rB.midError = none) (hlB : ¬ rB.bodyLen < 1000) :
    download_video cfg (DownloadEnv.mk rA ffA) streamUrl filename fs =
      FetchOut.mk (some (cfg.downloadDir ++ "/" ++ filename))
        (fsSet fs (cfg.downloadDir ++ "/" ++ filename) rA.bodyLen) false ∧
    download_video cfg (DownloadEnv.mk rB ffB) streamUrl filename
        (fsSet fs (cfg.downloadDir ++ "/" ++ filename) rA.bodyLen) =
      FetchOut.mk (some (cfg.downloadDir ++ "/" ++ filename))
        (fsSet (fsSet fs (cfg.downloadDir ++ "/" ++ filename) rA.bodyLen)
          (cfg.downloadDir ++ "/" ++ filename) rB.bodyLen) false ∧
    fsGet (fsSet (fsSet fs (cfg.downloadDir ++ "/" ++ filename) rA.bodyLen)
        (cfg.downloadDir ++ "/" ++ filename) rB.bodyLen)
      (cfg.downloadDir ++ "/" ++ filename) = some rB.bodyLen := by
  refine ⟨?_, ?_, ?_⟩ <;>
    simp [download_video, download_direct_http, tooLargeDeclared, hm, hsA, hclA,
      hmeA, hlA, hsB, hclB, hmeB, hlB, fsGet_fsSet_self]

/-- Witness for C3 amended at the concrete overwrite scenario. -/
theorem C3_amended_witness :
    download_video cfgC3 (DownloadEnv.mk (DResp.mk 200 none 5000 none) ffIdle)
        "https://cdn.example/video.mp4" "video.mp4" [] =
      FetchOut.mk (some ("./downloads" ++ "/" ++ "video.mp4"))
        (fsSet [] ("./downloads" ++ "/" ++ "video.mp4") 5000) false ∧
    download_video cfgC3 (DownloadEnv.mk (DResp.mk 200 none 4000 none) ffIdle)
        "https://cdn.example/video.mp4" "video.mp4"
        (fsSet [] ("./downloads" ++ "/" ++ "video.mp4") 5000) =
      FetchOut.mk (some ("./downloads" ++ "/" ++ "video.mp4"))
        (fsSet (fsSet [] ("./downloads" ++ "/" ++ "video.mp4") 5000)
          ("./downloads" ++ "/" ++ "video.mp4") 4000) false ∧
    fsGet (fsSet (fsSet [] ("./downloads" ++ "/" ++ "video.mp4") 5000)
        ("./downloads" ++ "/" ++ "video.mp4") 4000)
      ("./downloads" ++ "/" ++ "video.mp4") = some 4000 :=
  C3_amended cfgC3 (DResp.mk 200 none 5000 none) (DResp.mk 200 none 4000 none)
    ffIdle ffIdle "https://cdn.example/video.mp4" "video.mp4" []
    (by decide) rfl rfl rfl (by decide) rfl rfl rfl (by decide)

/-- Claim C4 counterexample: on the redirect-target fallback (line 96)
the filename is the raw basename of the redirect URL's path; for a
redirect to `https://cdn.example/download` the resolution succeeds with
filename `download`, which ends in no recognized media extension. -/
theorem C4_cex :
    fetch_stream_url "https://iteraplay.example/api" envC4 =
      (some ("https://cdn.example/download", "download"), [NetCall.api]) ∧
    hasMediaExt "download".data = false := by decide

/-- Claim C4 amended: on the JSON success path the filename is stripped
of reserved filesystem characters and guaranteed a recognized media
extension; the redirect-target and raw mp4-pattern fallbacks instead use
the raw URL basename, which need not carry a media extension. -/
theorem C4_amended (fields : List (String × JVal)) (u f : String)
    (h : jsonStep fields = JsonStep.found u f) :
    (∀ c ∈ f.data, illegalChar c = false) ∧ hasMediaExt f.data = true := by
  unfold jsonStep at h
  rcases hsf : streamField fields with _ | v
  · rw [hsf] at h
    exact absurd h (by simp)
  · rw [hsf] at h
    cases v with
    | str u0 =>
      rcases hnf : nameField fields with _ | w
      · rw [hnf] at h
        cases h
        exact sanitize_ok _
      · rw [hnf] at h
        cases w with
        | str f0 =>
          cases h
          exact sanitize_ok _
        | num n => exact absurd h (by simp)
        | bool b => exact absurd h (by simp)
        | null => exact absurd h (by simp)
        | arr l => exact absurd h (by simp)
        | obj l => exact absurd h (by simp)
    | num n => exact absurd h (by simp)
    | bool b => exact absurd h (by simp)
    | null => exact absurd h (by simp)
    | arr l => exact absurd h (by simp)
    | obj l => exact absurd h (by simp)

/-- Witness for C4 amended at a concrete JSON response. -/
theorem C4_amended_witness :
    (∀ c ∈ ("Demo Clip.mp4" : String).data, illegalChar c = false) ∧
      hasMediaExt ("Demo Clip.mp4" : String).data = true :=
  C4_amended [("url", JVal.str "https://cdn.example/video.mp4"),
    ("title", JVal.str "Demo Clip")] "https://cdn.example/video.mp4"
    "Demo Clip.mp4" (by decide)

/-- Claim C5 counterexample: a 404 API response whose body contains the
`recaptcha` marker is retried once before the 404 cut-off, so two network
calls are issued, not one. -/
theorem C5_cex :
    fetch_stream_url "https://iteraplay.example/api" envC5 =
      (none, [NetCall.api, NetCall.api]) ∧
    (fetch_stream_url "https://iteraplay.example/api" envC5).2.length ≠ 1 := by decide

/-- Claim C5 amended: for a 404 API response bearing no anti-bot marker,
resolution fails immediately with exactly one network call issued — no
retry, no body-pattern extraction, no fallback page fetch; a 404 bearing
an anti-bot marker is first retried once (a second API call) before the
same immediate cut-off. -/
theorem C5_amended (apiUrl : String) (env : ResolveEnv)
    (h404 : env.api0.status = 404) (hab : antiBotMarker env.api0 = false) :
    fetch_stream_url apiUrl env = (none, [NetCall.api]) := by
  unfold fetch_stream_url fetch_stream_url_raw handleResponse
  simp [hab, h404]

/-- Witness for C5 amended at a plain 404 response. -/
theorem C5_amended_witness :
    fetch_stream_url "https://iteraplay.example/api"
      (ResolveEnv.mk (ApiResponse.mk 404 "" "Not Found" none)
        (ApiResponse.mk 404 "" "Not Found" none) none) = (none, [NetCall.api]) :=
  C5_amended "https://iteraplay.example/api" _ rfl (by decide)

/-- Claim C9: normalization rewrites the `teraboxlink.com` alias before
the domain-marker check, so the alias input succeeds and its canonical
form contains `terabox.com` and no longer the alias. -/
theorem C9_alias_corrected :
    extract_terabox_url "https://teraboxlink.com/s/abc123" =
      some "https://terabox.com/s/abc123" ∧
    hasSub "terabox.com".data "https://terabox.com/s/abc123".data = true ∧
    hasSub "teraboxlink".data "https://terabox.com/s/abc123".data = false := by decide

/-- Claim C6: when the stream response declares a Content-Length over the
configured maximum, the direct-file fetch fails with the file system
untouched — the check at lines 315-318 runs before the output file is
even opened, so no bytes reach disk regardless of the body. -/
theorem C6_too_large_aborts (cfg : FetchConfig) (resp : DResp) (filePath : String)
    (fs : FileSys) (n : Nat) (hs : resp.status = 200)
    (hcl : resp.contentLength = some n) (hn : cfg.maxFileSize < n) :
    download_direct_http cfg resp filePath fs = (none, fs) := by
  have hnz : ¬ n = 0 := by omega
  simp [download_direct_http, tooLargeDeclared, hs, hcl, hnz, hn]

/-- Witness for C6 at a 3-gigabyte declared length against the 2 GiB
default ceiling. -/
theorem C6_too_large_aborts_witness :
    download_direct_http (FetchConfig.mk "./downloads" 2147483648)
      (DResp.mk 200 (some 3000000000) 0 none) "./downloads/video.mp4" [] =
      (none, []) :=
  C6_too_large_aborts _ _ _ _ 3000000000 rfl rfl (by decide)

/-- Failure paths of `_download_direct_http` leave no file at the target
path (given none existed before the call). -/
theorem direct_http_no_partial (cfg : FetchConfig) (resp : DResp) (p : String)
    (fs : FileSys) (h0 : fsGet fs p = none)
    (hf : (download_direct_http cfg resp p fs).1 = none) :
    fsGet (download_direct_http cfg resp p fs).2 p = none := by
  by_cases h1 : resp.status = 200
  · by_cases h2 : tooLargeDeclared cfg resp.contentLength
    · simp [download_direct_http, h1, h2, h0]
    · cases hme : resp.midError with
      | some k => simp [download_direct_http, h1, h2, hme, fsGet_fsRemove_self]
      | none =>
        by_cases h3 : resp.bodyLen < 1000
        · simp [download_direct_http, h1, h2, hme, h3, fsGet_fsRemove_self]
        · exfalso
          simp [download_direct_http, h1, h2, hme, h3] at hf
  · simp [download_direct_http, h1, h0]

/-- Failure paths of `_download_m3u8_with_ffmpeg` leave no file at the
target path (given none existed before the call). -/
theorem m3u8_no_partial (ff : FfRun) (p : String) (fs : FileSys)
    (h0 : fsGet fs p = none)
    (hf : (download_m3u8_with_ffmpeg ff p fs).1 = none) :
    fsGet (download_m3u8_with_ffmpeg ff p fs).2 p = none := by
  cases hex : ff.exit with
  | timeout => simp [download_m3u8_with_ffmpeg, hex, fsGet_fsRemove_self]
  | exited code =>
    by_cases hc : code = 0
    · cases hw : ff.written with
      | none => simp [download_m3u8_with_ffmpeg, hex, hw, hc, h0]
      | some n =>
        by_cases hn : n < 100000
        · simp [download_m3u8_with_ffmpeg, hex, hw, hc, hn, fsGet_fsSet_self,
            fsGet_fsRemove_self]
        · exfalso
          simp [download_m3u8_with_ffmpeg, hex, hw, hc, hn, fsGet_fsSet_self] at hf
    · simp [download_m3u8_with_ffmpeg, hex, hc, fsGet_fsRemove_self]

/-- Claim C7: on every failure path of the media fetch — non-200 stream
response, declared over-size, mid-stream exception, sub-threshold result,
ffmpeg timeout or non-zero exit — the target output file does not exist
in the download directory after the call returns. -/
theorem C7_no_partial_on_failure (cfg : FetchConfig) (denv : DownloadEnv)
    (streamUrl filename : String) (fs : FileSys)
    (h0 : fsGet fs (cfg.downloadDir ++ "/" ++ filename) = none)
    (hf : (download_video cfg denv streamUrl filename fs).result = none) :
    fsGet (download_video cfg denv streamUrl filename fs).fs
      (cfg.downloadDir ++ "/" ++ filename) = none := by
  by_cases hm : isM3u8Url streamUrl
  · simp only [download_video, hm, if_true] at hf ⊢
    exact m3u8_no_partial _ _ _ h0 hf
  · simp only [download_video, hm, Bool.false_eq_true, if_false] at hf ⊢
    exact direct_http_no_partial _ _ _ _ h0 hf

/-- Witness for C7 at a failed direct fetch (10-byte error body). -/
theorem C7_no_partial_on_failure_witness :
    fsGet (download_video (FetchConfig.mk "./downloads" 2147483648)
      (DownloadEnv.mk (DResp.mk 200 none 10 none) ffIdle)
      "https://cdn.example/video.mp4" "video.mp4" []).fs
      ("./downloads" ++ "/" ++ "video.mp4") = none :=
  C7_no_partial_on_failure (FetchConfig.mk "./downloads" 2147483648)
    (DownloadEnv.mk (DResp.mk 200 none 10 none) ffIdle)
    "https://cdn.example/video.mp4" "video.mp4" [] (by decide) (by decide)

/-- Claim C8: for a 200 JSON response shaped
`[("url", u), ("title", t)]` with both values non-empty strings,
resolution succeeds with the stream URL exactly `u` and the filename
equal to the title with filesystem-illegal characters stripped and the
default `.mp4` extension appended exactly when no recognized media
extension is already present. -/
theorem C8_json_url_title (apiUrl : String) (env : ResolveEnv) (u t : String)
    (hst : env.api0.status = 200) (hab : antiBotMarker env.api0 = false)
    (hjs : env.api0.jsonVal =
      some (JVal.obj [("url", JVal.str u), ("title", JVal.str t)]))
    (hu : u ≠ "") (ht : t ≠ "") :
    fetch_stream_url apiUrl env = (some (u, sanitizeName t), [NetCall.api]) := by
  have hjson : jsonStep [("url", JVal.str u), ("title", JVal.str t)] =
      JsonStep.found u (sanitizeName t) := by
    simp [jsonStep, streamField, nameField, firstTruthy, assocLookup, truthy,
      urlKeys, nameKeys, List.findSome?, hu, ht]
  unfold fetch_stream_url fetch_stream_url_raw handleResponse
  simp [hab, hst, hjs, hjson]

/-- Witness for C8 at the spec's concrete example: the filename comes out
as `My Clip.mp4`. -/
theorem C8_json_url_title_witness :
    fetch_stream_url "https://iteraplay.example/api"
      (ResolveEnv.mk (ApiResponse.mk 200 "" ""
        (some (JVal.obj [("url", JVal.str "https://cdn.example/video.mp4"),
          ("title", JVal.str "My Clip")])))
        (ApiResponse.mk 200 "" "" none) none) =
      (some ("https://cdn.example/video.mp4", "My Clip.mp4"), [NetCall.api]) := by
  rw [C8_json_url_title "https://iteraplay.example/api" _
    "https://cdn.example/video.mp4" "My Clip" rfl (by decide) rfl
    (by decide) (by decide)]
  decide

/-- Claim C10: the fetch takes the ffmpeg remux branch exactly when the
stream URL contains `.m3u8` or `playlist` case-insensitively; every other
URL goes through direct HTTP streaming. -/
theorem C10_remux_classification (cfg : FetchConfig) (denv : DownloadEnv)
    (streamUrl filename : String) (fs : FileSys) :
    (download_video cfg denv streamUrl filename fs).usedRemux =
      (hasSub ".m3u8".data (lowerList streamUrl.data) ||
        hasSub "playlist".data (lowerList streamUrl.data)) := by
  show (download_video cfg denv streamUrl filename fs).usedRemux = isM3u8Url streamUrl
  unfold download_video
  by_cases h : isM3u8Url streamUrl <;> simp [h]
